import Mathlib

/-!
# Verification of the HamAlert-to-Discord bridge (`app.py`)

A shallow embedding of the session-management core of `app.py`:

* `Json`, `pyIn`, `pyGetItem`, `pyGet` — the Python data values and the
  dynamic operations (`key in x`, `x[key]`, `x.get(key)`) used on decoded
  payloads, with their Python error behaviour (`TypeError` on membership
  tests against non-container values, `KeyError` on missing dict keys,
  `AttributeError` for `.get` on non-dicts).
* `message_builder` — `TelnetListener.message_builder`.
* `process_data` — `TelnetListener.process_data`.  The call to
  `json.loads` (standard library, not repository code) is abstracted as a
  decode oracle `dec : String → Option Json`; `dec s = none` models
  `json.JSONDecodeError`.
* `init_connection` — `TelnetListener.initialize_connection`, driven over
  a finite script of read results.
* `mainLoop`, `run` — `TelnetListener.run`, producing the trace of
  observable side effects (writes, keepalives, sink sends, warning/error
  logs, sleeps) together with whether `run` returned or is still running
  when the script is exhausted.

Traces record `notifier.send_message`, `logging.warning`/`logging.error`,
`tn.write`, the keepalive `sendall`, `time.sleep` and the `Telnet`
constructor call.  `logging.info`/`logging.debug` calls are pure logging
with no control-flow effect and are not recorded.
-/

namespace App

/-- Values produced by `json.loads`: null, booleans, numbers (modelled as
integers — no claim involves fractional numbers), strings, arrays and
objects.  An `obj` represents a decoded Python dict; `json.loads` yields
dicts with distinct keys, so lookup takes the first matching binding. -/
inductive Json where
  | null : Json
  | bool (b : Bool) : Json
  | num (n : Int) : Json
  | str (s : String) : Json
  | arr (xs : List Json) : Json
  | obj (kvs : List (String × Json)) : Json

/-- The Python exceptions that the embedded operations can raise.
`connectionRefused` models `ConnectionRefusedError` (singled out because
`TelnetListener.run` has a dedicated `except` clause for it); `other`
stands for any further `Exception` (e.g. `EOFError`,
`UnicodeDecodeError`). -/
inductive PyError where
  | typeError : PyError
  | keyError : PyError
  | attributeError : PyError
  | connectionRefused : PyError
  | other : PyError
deriving DecidableEq

/-- Stand-in for Python `str(e)` on an exception, used when `run` formats
`"An error occurred: %s"`: we render the exception class name. -/
def pyErrStr : PyError → String
  | .typeError => "TypeError"
  | .keyError => "KeyError"
  | .attributeError => "AttributeError"
  | .connectionRefused => "ConnectionRefusedError"
  | .other => "Exception"

/-- First-match lookup in a decoded dict (dicts from `json.loads` have
distinct keys). -/
def dictLookup (kvs : List (String × Json)) (k : String) : Option Json :=
  match kvs with
  | [] => none
  | (k', v) :: rest => if k' = k then some v else dictLookup rest k

mutual
/-- Python `repr` of a decoded JSON value (escaping inside nested string
values is not reproduced; no claim renders a container or a string whose
repr differs from quoting). -/
def pyRepr : Json → String
  | .null => "None"
  | .bool b => cond b "True" "False"
  | .num n => toString n
  | .str s => "\x27" ++ s ++ "\x27"
  | .arr xs => "[" ++ pyReprList xs ++ "]"
  | .obj kvs => "\x7b" ++ pyReprObj kvs ++ "\x7d"

/-- Comma-separated reprs of the elements of a decoded list. -/
def pyReprList : List Json → String
  | [] => ""
  | [x] => pyRepr x
  | x :: xs => pyRepr x ++ ", " ++ pyReprList xs

/-- Comma-separated `'key': repr(value)` entries of a decoded dict. -/
def pyReprObj : List (String × Json) → String
  | [] => ""
  | [(k, v)] => "\x27" ++ k ++ "\x27: " ++ pyRepr v
  | (k, v) :: kvs => "\x27" ++ k ++ "\x27: " ++ pyRepr v ++ ", " ++ pyReprObj kvs
end

/-- Python `str` of a decoded JSON value, as interpolated by the
f-strings in `message_builder`: a string renders as itself, anything else
as its repr. -/
def pyStr : Json → String
  | .str s => s
  | j => pyRepr j

/-- Whether `pat` starts `l`. -/
def charsHead (pat l : List Char) : Bool :=
  match pat, l with
  | [], _ => true
  | _ :: _, [] => false
  | p :: ps, c :: cs => p == c && charsHead ps cs

/-- Whether `pat` occurs contiguously inside `l` (Python substring
membership; the empty pattern occurs everywhere). -/
def charsSub (pat l : List Char) : Bool :=
  match l with
  | [] => pat.isEmpty
  | _ :: cs => charsHead pat l || charsSub pat cs

/-- Python `key in value` for a string key.  Membership in a dict checks
key presence; in a string it is substring containment; in a list it is
elementwise equality (a string equals only an equal string).  On `None`,
booleans and numbers it raises `TypeError` ("argument of type ... is not
iterable"). -/
def pyIn (k : String) (v : Json) : Except PyError Bool :=
  match v with
  | .obj kvs => .ok (dictLookup kvs k).isSome
  | .str s => .ok (charsSub k.data s.data)
  | .arr xs => .ok (xs.any fun el => match el with | .str t => t == k | _ => false)
  | _ => .error .typeError

/-- Python `value[key]` for a string key: dict lookup (raising `KeyError`
when absent); on strings and lists a string index raises `TypeError`, as
does subscripting `None`, booleans and numbers. -/
def pyGetItem (v : Json) (k : String) : Except PyError Json :=
  match v with
  | .obj kvs =>
    match dictLookup kvs k with
    | some x => .ok x
    | none => .error .keyError
  | _ => .error .typeError

/-- Python `value.get(key)`: defined on dicts (returning `None`, here
`Option.none`, when the key is absent); any other decoded value has no
`get` attribute, raising `AttributeError`. -/
def pyGet (v : Json) (k : String) : Except PyError (Option Json) :=
  match v with
  | .obj kvs => .ok (dictLookup kvs k)
  | _ => .error .attributeError

/-- Python `x == "<literal>"` for a possibly-`None` decoded value, as in
`payload.get('source') == 'sotawatch'`: true exactly when the value is a
string with that content. -/
def pyEqStr (v : Option Json) (s : String) : Bool :=
  match v with
  | some (.str t) => t == s
  | _ => false

/-- Python `str.strip()` restricted to ASCII whitespace (space, tab, CR,
LF) — the characters that occur in the protocol's lines. -/
def pyStrip (s : String) : String :=
  String.mk (((s.data.dropWhile Char.isWhitespace).reverse.dropWhile Char.isWhitespace).reverse)

/-- Python `str.upper()` (ASCII; applied to the username in
`TelnetListener.__init__`). -/
def pyUpper (s : String) : String :=
  String.mk (s.data.map Char.toUpper)

/-- The mountain-glyph marker `"🏔️ SOTA "` from `message_builder`:
U+1F3D4 followed by the variation selector U+FE0F, then `" SOTA "`,
exactly the codepoints of the source literal. -/
def sotaMarker : String :=
  String.mk [Char.ofNat 0x1F3D4, Char.ofNat 0xFE0F] ++ " SOTA "

/-- The tree-glyph marker `"🌳 POTA "` from `message_builder` (U+1F333
then `" POTA "`). -/
def potaMarker : String :=
  String.mk [Char.ofNat 0x1F333] ++ " POTA "

/-- The base message built first in `message_builder`: note that it
starts with a space — no field precedes `" spotted:"` — and that the
timestamp slot renders `int(time.time())` (the `now` argument), not the
payload's `time` field. -/
def baseMessage (now : Nat) (fullCallsign frequency mode : String) : String :=
  " spotted: **" ++ fullCallsign ++ "** on " ++ frequency ++ " " ++ mode ++
    " <t:" ++ toString now ++ ":R>"

/-- `TelnetListener.message_builder`.  `now` is the value of
`int(time.time())` at the moment of formatting.  Field accesses follow
the source's evaluation order; each can raise, and the result is the
finished message otherwise. -/
def message_builder (now : Nat) (payload : Json) : Except PyError String :=
  match pyGetItem payload "fullCallsign" with
  | .error e => .error e
  | .ok fc =>
  match pyGetItem payload "frequency" with
  | .error e => .error e
  | .ok fr =>
  match pyGetItem payload "mode" with
  | .error e => .error e
  | .ok md =>
  let message := " spotted: **" ++ pyStr fc ++ "** on " ++ pyStr fr ++ " " ++ pyStr md ++
    " <t:" ++ toString now ++ ":R>"
  match pyGet payload "source" with
  | .error e => .error e
  | .ok src =>
  if pyEqStr src "sotawatch" then
    let message := sotaMarker ++ message
    match pyIn "summitName" payload with
    | .error e => .error e
    | .ok false => .ok message
    | .ok true =>
      match pyGetItem payload "summitName" with
      | .error e => .error e
      | .ok sn => .ok (message ++ "\nSummit: " ++ pyStr sn)
  else if pyEqStr src "pota" then
    let message := potaMarker ++ message
    match pyIn "wwffName" payload with
    | .error e => .error e
    | .ok false => .ok message
    | .ok true =>
      match pyIn "wwffRef" payload with
      | .error e => .error e
      | .ok false => .ok message
      | .ok true =>
        match pyGetItem payload "wwffRef" with
        | .error e => .error e
        | .ok ref =>
        match pyGetItem payload "wwffName" with
        | .error e => .error e
        | .ok nm =>
          .ok (message ++ "\nPark:" ++ pyStr ref ++ "  " ++ pyStr nm ++
            "\n<https://pota.app/#/park/" ++ pyStr ref ++ ">")
  else .ok message

/-- The seven required keys of `process_data`, in the textual order of
the source's set literal.  (The source iterates a Python `set`, whose
order is unspecified; the checks below are order-independent — they
either all raise `TypeError`, by the type of the value, or none do.) -/
def required_fields : List String :=
  ["fullCallsign", "callsign", "frequency", "mode", "spotter", "time", "source"]

/-- `all(key in data_dict for key in required_fields)`: short-circuiting
conjunction of `pyIn` checks, propagating the first raised error. -/
def check_required (d : Json) : List String → Except PyError Bool
  | [] => .ok true
  | k :: ks =>
    match pyIn k d with
    | .error e => .error e
    | .ok true => check_required d ks
    | .ok false => .ok false

/-- One observable side effect of the listener.  `sent` is
`notifier.send_message`, `warned` is the `logging.warning` on a
badly-shaped record, `logError` is `logging.error`, `wrote` is
`tn.write`, `keepalive` is the `IAC+NOP` `sendall`, `slept` is
`time.sleep`, and `connectAttempt` is the `telnetlib.Telnet(...)`
constructor call. -/
inductive Event where
  | sent (msg : String) : Event
  | warned (d : Json) : Event
  | logError (msg : String) : Event
  | wrote (bytes : String) : Event
  | keepalive : Event
  | slept (secs : Nat) : Event
  | connectAttempt : Event

/-- `TelnetListener.process_data`.  `dec` is the `json.loads` oracle
(`none` = `JSONDecodeError`).  Returns the emitted events, or the Python
error that escapes (the membership test raises on non-container decodes,
and `message_builder` can raise in principle). -/
def process_data (dec : String → Option Json) (now : Nat) (data : String) :
    Except PyError (List Event) :=
  match dec data with
  | none => .ok [.sent data]
  | some d =>
    match check_required d required_fields with
    | .error e => .error e
    | .ok false => .ok [.warned d]
    | .ok true =>
      match message_builder now d with
      | .error e => .error e
      | .ok msg => .ok [.sent msg]

/-- One result of `tn.read_until(b"\n", timeout=30).decode("utf-8")`:
either the decoded text (an idle timeout yields text with no terminator,
typically `""`; an actual empty line yields `"\n"`), or a raised error
(connection reset, decode failure, ...). -/
inductive ReadItem where
  | bytes (s : String) : ReadItem
  | raiseErr (e : PyError) : ReadItem

/-- Outcome of `initialize_connection` on a finite read script: it
returned (with its emitted events, its boolean result and the unconsumed
script), a read raised, or the script was exhausted with the loop still
running (`hang` — the real code would keep reading forever). -/
inductive InitOutcome where
  | done (evs : List Event) (result : Bool) (rest : List ReadItem) : InitOutcome
  | raised (evs : List Event) (e : PyError) : InitOutcome
  | hang (evs : List Event) : InitOutcome

/-- Prepend already-emitted events to an outcome's trace. -/
def InitOutcome.addEvents (pre : List Event) : InitOutcome → InitOutcome
  | .done evs b rest => .done (pre ++ evs) b rest
  | .raised evs e => .raised (pre ++ evs) e
  | .hang evs => .hang (pre ++ evs)

/-- The listener's credentials, as stored by `TelnetListener.__init__`
(host and port do not influence the modelled behaviour and are
omitted). -/
structure TelnetListener where
  username : String
  password : String

/-- `TelnetListener.__init__`: the username is upper-cased ("call sign
has to be in upper case"). -/
def mkListener (username password : String) : TelnetListener :=
  { username := pyUpper username, password := password }

/-- `TelnetListener.initialize_connection`: read stripped lines until
`"Operation successful"` arrives; the greeting is skipped, the command
prompt triggers `time.sleep(1)` followed by writing `set/json`, and any
other line (including the empty result of a timed-out read) is ignored.
The loop `while not initialized` exits only once `initialized` is set,
and `return initialized` then returns that flag. -/
def init_connection (l : TelnetListener) : List ReadItem → InitOutcome
  | [] => .hang []
  | .raiseErr e :: _ => .raised [] e
  | .bytes s :: rest =>
    let data := pyStrip s
    if data = "Hello " ++ l.username ++ ", this is HamAlert" then
      init_connection l rest
    else if data = l.username ++ " de HamAlert >" then
      InitOutcome.addEvents [.slept 1, .wrote "set/json\n"] (init_connection l rest)
    else if data = "Operation successful" then
      .done [] true rest
    else
      init_connection l rest

/-- Outcome of the `while True` read loop in `run`: the script ran out
with the loop still going, or a read / `process_data` call raised. -/
inductive LoopOutcome where
  | hang : LoopOutcome
  | raised (e : PyError) : LoopOutcome

/-- The `while True` loop of `TelnetListener.run`: each read is stripped;
an empty result sends one keepalive and continues; anything else goes to
`process_data`, whose raised errors abort the loop.  `now` is the
formatting clock (held fixed: no run-level claim depends on its
advance). -/
def mainLoop (dec : String → Option Json) (now : Nat) :
    List ReadItem → List Event × LoopOutcome
  | [] => ([], .hang)
  | .raiseErr e :: _ => ([], .raised e)
  | .bytes s :: rest =>
    let data := pyStrip s
    if data = "" then
      let r := mainLoop dec now rest
      (.keepalive :: r.1, r.2)
    else
      match process_data dec now data with
      | .error e => ([], .raised e)
      | .ok pevs =>
        let r := mainLoop dec now rest
        (pevs ++ r.1, r.2)

/-- Behaviour of the transport for one call of `run`: the
`telnetlib.Telnet` constructor raises, or it connects and the login
exchange (`read_until(b"login: ")` / `read_until(b"password: ")`)
either completes or raises, after which `reads` scripts the
newline-delimited reads consumed by the handshake and the main loop. -/
inductive Script where
  | ctorRaise (e : PyError) : Script
  | connected (login : Except PyError Unit) (reads : List ReadItem) : Script

/-- Whether `run` returned, or is still running when its script ends. -/
inductive RunOutcome where
  | returned : RunOutcome
  | stillRunning : RunOutcome
deriving DecidableEq

/-- The `except` clauses of `run`: `ConnectionRefusedError` gets the
dedicated message, any other `Exception` is logged as
`"An error occurred: %s"`. -/
def exceptLog (e : PyError) : Event :=
  if e = .connectionRefused then
    .logError "Telnet connection refused. Ensure the server is running and reachable."
  else
    .logError ("An error occurred: " ++ pyErrStr e)

/-- `TelnetListener.run`: one call of the method.  Opens the transport,
performs the login writes, drives `init_connection`, then the main read
loop; every raised error is caught by the two `except` clauses, logged,
and `run` RETURNS — there is no retry loop, no backoff state and no
sleep between attempts in the source. -/
def run (dec : String → Option Json) (l : TelnetListener) (now : Nat) :
    Script → List Event × RunOutcome
  | .ctorRaise e => ([.connectAttempt, exceptLog e], .returned)
  | .connected login reads =>
    match login with
    | .error e => ([.connectAttempt, exceptLog e], .returned)
    | .ok _ =>
      let loginEvs : List Event :=
        [.connectAttempt, .wrote (l.username ++ "\n"), .wrote (l.password ++ "\n")]
      match init_connection l reads with
      | .hang evs => (loginEvs ++ evs, .stillRunning)
      | .raised evs e => (loginEvs ++ evs ++ [exceptLog e], .returned)
      | .done evs b rest =>
        if b then
          match mainLoop dec now rest with
          | (mevs, .hang) => (loginEvs ++ evs ++ mevs, .stillRunning)
          | (mevs, .raised e) => (loginEvs ++ evs ++ mevs ++ [exceptLog e], .returned)
        else
          (loginEvs ++ evs ++ [.logError "Failed to initialize connection."], .returned)

/-- A decode oracle on which every line fails to parse as JSON. -/
def dec0 : String → Option Json := fun _ => none

/-- The generic test payload of `test_message_builder_generic`. -/
def payloadGeneric : Json :=
  .obj [("fullCallsign", .str "K1ABC"), ("callsign", .str "K1ABC"),
        ("frequency", .str "14.250"), ("mode", .str "SSB"),
        ("spotter", .str "Spotter1"), ("time", .str "123456"),
        ("source", .str "unknown")]

/-- The POTA test payload of `test_message_builder_pota`. -/
def payloadPota : Json :=
  .obj [("fullCallsign", .str "K1XYZ"), ("callsign", .str "K1XYZ"),
        ("frequency", .str "7.040"), ("mode", .str "CW"),
        ("spotter", .str "Spotter2"), ("time", .str "654321"),
        ("source", .str "pota"), ("wwffName", .str "National Park"),
        ("wwffRef", .str "NP-123")]

/-- The sotawatch test payload of `test_message_builder_sotawatch`,
as a key-value list. -/
def sotaKvs : List (String × Json) :=
  [("fullCallsign", .str "K1ABC"), ("callsign", .str "K1ABC"),
   ("frequency", .str "14.250"), ("mode", .str "SSB"),
   ("spotter", .str "Spotter1"), ("time", .str "123456"),
   ("source", .str "sotawatch"), ("summitName", .str "Mount Test")]

/-- The listener built from the suite's test credentials. -/
def listenerEx : TelnetListener := mkListener "testuser" "testpass"

/-- A decode oracle under which exactly the line `"5"` parses, to the
integer `5` (what `json.loads("5")` returns). -/
def dec5 : String → Option Json := fun s => if s = "5" then some (.num 5) else none

/-- A transport script: clean connect and login, the three handshake
lines, then the line `"5"`. -/
def scriptC9 : Script :=
  .connected (.ok ()) [.bytes "Hello TESTUSER, this is HamAlert\n",
    .bytes "TESTUSER de HamAlert >\n", .bytes "Operation successful\n", .bytes "5\n"]

/-- A decode oracle under which every line decodes to a dict missing all
required keys but `fullCallsign`. -/
def decMissing : String → Option Json :=
  fun _ => some (Json.obj [("fullCallsign", Json.str "K1ABC")])

/-- On a decoded dict, the required-keys conjunction never raises and
computes the conjunction of key-presence checks. -/
theorem check_required_obj (kvs : List (String × Json)) (ks : List String) :
    check_required (Json.obj kvs) ks = .ok (ks.all fun k => (dictLookup kvs k).isSome) := by
  induction ks with
  | nil => rfl
  | cons k ks ih =>
    simp only [check_required, pyIn, List.all_cons]
    cases h : (dictLookup kvs k).isSome <;> simp [h, ih]

/-- On a decoded dict carrying the three keys that `message_builder`
subscripts unconditionally, `message_builder` never raises. -/
theorem message_builder_obj_ok (now : Nat) (kvs : List (String × Json))
    (h1 : (dictLookup kvs "fullCallsign").isSome)
    (h2 : (dictLookup kvs "frequency").isSome)
    (h3 : (dictLookup kvs "mode").isSome) :
    ∃ m, message_builder now (Json.obj kvs) = .ok m := by
  obtain ⟨fc, hfc⟩ := Option.isSome_iff_exists.mp h1
  obtain ⟨fr, hfr⟩ := Option.isSome_iff_exists.mp h2
  obtain ⟨md, hmd⟩ := Option.isSome_iff_exists.mp h3
  simp only [message_builder, pyGetItem, pyGet, hfc, hfr, hmd]
  by_cases hs : pyEqStr (dictLookup kvs "source") "sotawatch" = true
  · simp only [hs, if_true]
    cases hsum : dictLookup kvs "summitName" with
    | none => simp [pyIn, hsum]
    | some v => simp [pyIn, pyGetItem, hsum]
  · simp only [hs, if_false]
    by_cases hp : pyEqStr (dictLookup kvs "source") "pota" = true
    · simp only [hp, if_true]
      cases hn : dictLookup kvs "wwffName" with
      | none => simp [pyIn, hn]
      | some nv =>
        cases hr : dictLookup kvs "wwffRef" with
        | none => simp [pyIn, hn, hr]
        | some rv => simp [pyIn, pyGetItem, hn, hr]
    · simp [hs, hp]

/-- Destructing `addEvents` on a `done` outcome. -/
theorem addEvents_done {pre : List Event} {o : InitOutcome} {evs : List Event}
    {b : Bool} {rest : List ReadItem}
    (h : InitOutcome.addEvents pre o = .done evs b rest) :
    ∃ evs', o = .done evs' b rest ∧ evs = pre ++ evs' := by
  cases o with
  | done evs' b' rest' =>
    simp only [InitOutcome.addEvents, InitOutcome.done.injEq] at h
    exact ⟨evs', by simp [h.2.1, h.2.2, ← h.1]⟩
  | raised _ _ => simp [InitOutcome.addEvents] at h
  | hang _ => simp [InitOutcome.addEvents] at h

/-- Whenever `initialize_connection` returns, it returns `True`: the
only exit of its `while not initialized` loop sets the flag. -/
theorem init_done_result_true (l : TelnetListener) :
    ∀ reads evs b rest, init_connection l reads = InitOutcome.done evs b rest → b = true := by
  intro reads
  induction reads with
  | nil => intro evs b rest h; simp [init_connection] at h
  | cons item tl ih =>
    intro evs b rest h
    cases item with
    | raiseErr e => simp [init_connection] at h
    | bytes s =>
      simp only [init_connection] at h
      split at h
      · exact ih _ _ _ h
      · split at h
        · obtain ⟨evs', h', _⟩ := addEvents_done h
          exact ih _ _ _ h'
        · split at h
          · simp only [InitOutcome.done.injEq] at h
            exact h.2.1.symm
          · exact ih _ _ _ h

/-- If no scripted line strips to `"Operation successful"`,
`initialize_connection` never returns. -/
theorem init_no_success_no_return (l : TelnetListener) :
    ∀ reads, (∀ s, ReadItem.bytes s ∈ reads → pyStrip s ≠ "Operation successful") →
      ∀ evs b rest, init_connection l reads ≠ InitOutcome.done evs b rest := by
  intro reads
  induction reads with
  | nil => intro _ evs b rest h; simp [init_connection] at h
  | cons item tl ih =>
    intro hno evs b rest h
    have hno' : ∀ s, ReadItem.bytes s ∈ tl → pyStrip s ≠ "Operation successful" :=
      fun s hs => hno s (List.mem_cons_of_mem _ hs)
    cases item with
    | raiseErr e => simp [init_connection] at h
    | bytes s =>
      simp only [init_connection] at h
      split at h
      · exact ih hno' _ _ _ h
      · split at h
        · obtain ⟨evs', h', _⟩ := addEvents_done h
          exact ih hno' _ _ _ h'
        · split at h
          case isTrue heq => exact hno s (List.mem_cons_self _ _) heq
          case isFalse => exact ih hno' _ _ _ h

/-- The event trace of an `InitOutcome`. -/
def initEvsOf : InitOutcome → List Event
  | .done evs _ _ => evs
  | .raised evs _ => evs
  | .hang evs => evs

/-- `addEvents` prepends to the trace. -/
theorem initEvsOf_addEvents (pre : List Event) (o : InitOutcome) :
    initEvsOf (InitOutcome.addEvents pre o) = pre ++ initEvsOf o := by
  cases o <;> rfl

/-- `initialize_connection` only sleeps one second and writes the
mode-switch command: those are its only side effects. -/
theorem init_events_shape (l : TelnetListener) :
    ∀ reads, ∀ e ∈ initEvsOf (init_connection l reads),
      e = Event.slept 1 ∨ e = Event.wrote "set/json\n" := by
  intro reads
  induction reads with
  | nil => intro e he; simp [init_connection, initEvsOf] at he
  | cons item tl ih =>
    intro e he
    cases item with
    | raiseErr err => simp [init_connection, initEvsOf] at he
    | bytes s =>
      simp only [init_connection] at he
      split at he
      · exact ih e he
      · split at he
        · rw [initEvsOf_addEvents] at he
          rcases List.mem_append.mp he with h | h
          · simpa using h
          · exact ih e h
        · split at he
          · simp [initEvsOf] at he
          · exact ih e he

/-- Every event emitted by `process_data` is a sink send or the
bad-format warning. -/
theorem process_data_events_shape (dec : String → Option Json) (now : Nat) (data : String)
    (evs : List Event) (h : process_data dec now data = .ok evs) :
    ∀ e ∈ evs, (∃ m, e = Event.sent m) ∨ (∃ d, e = Event.warned d) := by
  intro e he
  simp only [process_data] at h
  split at h
  · simp only [Except.ok.injEq] at h
    subst h
    simp only [List.mem_singleton] at he
    exact Or.inl ⟨_, he⟩
  · split at h
    · exact absurd h (by simp)
    · simp only [Except.ok.injEq] at h
      subst h
      simp only [List.mem_singleton] at he
      exact Or.inr ⟨_, he⟩
    · split at h
      · exact absurd h (by simp)
      · simp only [Except.ok.injEq] at h
        subst h
        simp only [List.mem_singleton] at he
        exact Or.inl ⟨_, he⟩

/-- Every event emitted by the read loop is a keepalive, a sink send or
the bad-format warning. -/
theorem mainLoop_events_shape (dec : String → Option Json) (now : Nat) :
    ∀ reads, ∀ e ∈ (mainLoop dec now reads).1,
      e = Event.keepalive ∨ (∃ m, e = Event.sent m) ∨ (∃ d, e = Event.warned d) := by
  intro reads
  induction reads with
  | nil => intro e he; simp [mainLoop] at he
  | cons item tl ih =>
    intro e he
    cases item with
    | raiseErr err => simp [mainLoop] at he
    | bytes s =>
      simp only [mainLoop] at he
      split at he
      · simp only [List.mem_cons] at he
        rcases he with he | he
        · exact Or.inl he
        · exact ih e he
      · split at he
        · simp at he
        · rcases List.mem_append.mp he with h | h
          · rcases process_data_events_shape dec now (pyStrip s) _ (by assumption) e h with h' | h'
            · exact Or.inr (Or.inl h')
            · exact Or.inr (Or.inr h')
          · exact ih e h

/-- The two `except` clauses never log the failed-initialization
message. -/
theorem exceptLog_ne_failed_init (e : PyError) :
    exceptLog e ≠ Event.logError "Failed to initialize connection." := by
  cases e <;> simp [exceptLog, pyErrStr]

/-- `run` never logs `"Failed to initialize connection."`: the branch
guarded by a `False` result of `initialize_connection` is unreachable. -/
theorem run_no_failed_init_log (dec : String → Option Json) (l : TelnetListener)
    (now : Nat) (script : Script) :
    Event.logError "Failed to initialize connection." ∉ (run dec l now script).1 := by
  intro hmem
  cases script with
  | ctorRaise e =>
    simp only [run, List.mem_cons, List.not_mem_nil, or_false] at hmem
    rcases hmem with h | h
    · exact Event.noConfusion h
    · exact exceptLog_ne_failed_init e h.symm
  | connected login reads =>
    cases login with
    | error e =>
      simp only [run, List.mem_cons, List.not_mem_nil, or_false] at hmem
      rcases hmem with h | h
      · exact Event.noConfusion h
      · exact exceptLog_ne_failed_init e h.symm
    | ok u =>
      cases hinit : init_connection l reads with
      | hang evs =>
        have htr : (run dec l now (.connected (.ok u) reads)).1 =
            [Event.connectAttempt, .wrote (l.username ++ "\n"),
              .wrote (l.password ++ "\n")] ++ evs := by
          simp [run, hinit]
        rw [htr] at hmem
        rcases List.mem_append.mp hmem with h | h
        · simp at h
        · rcases init_events_shape l reads _ (by rw [hinit]; exact h) with h' | h' <;>
            exact Event.noConfusion h'
      | raised evs e =>
        have htr : (run dec l now (.connected (.ok u) reads)).1 =
            ([Event.connectAttempt, .wrote (l.username ++ "\n"),
              .wrote (l.password ++ "\n")] ++ evs) ++ [exceptLog e] := by
          simp [run, hinit]
        rw [htr] at hmem
        rcases List.mem_append.mp hmem with h | h
        · rcases List.mem_append.mp h with h2 | h2
          · simp at h2
          · rcases init_events_shape l reads _ (by rw [hinit]; exact h2) with h' | h' <;>
              exact Event.noConfusion h'
        · simp only [List.mem_singleton] at h
          exact exceptLog_ne_failed_init e h.symm
      | done evs b rest =>
        have hb := init_done_result_true l reads evs b rest hinit
        subst hb
        cases hml : mainLoop dec now rest with
        | mk mevs lo =>
          cases lo with
          | hang =>
            have htr : (run dec l now (.connected (.ok u) reads)).1 =
                ([Event.connectAttempt, .wrote (l.username ++ "\n"),
                  .wrote (l.password ++ "\n")] ++ evs) ++ mevs := by
              simp [run, hinit, hml]
            rw [htr] at hmem
            rcases List.mem_append.mp hmem with h | h
            · rcases List.mem_append.mp h with h2 | h2
              · simp at h2
              · rcases init_events_shape l reads _ (by rw [hinit]; exact h2) with h' | h' <;>
                  exact Event.noConfusion h'
            · rcases mainLoop_events_shape dec now rest _ (by rw [hml]; exact h) with
                h' | h' | h'
              · exact Event.noConfusion h'
              · obtain ⟨m, h2⟩ := h'; exact Event.noConfusion h2
              · obtain ⟨d, h2⟩ := h'; exact Event.noConfusion h2
          | raised e =>
            have htr : (run dec l now (.connected (.ok u) reads)).1 =
                (([Event.connectAttempt, .wrote (l.username ++ "\n"),
                  .wrote (l.password ++ "\n")] ++ evs) ++ mevs) ++ [exceptLog e] := by
              simp [run, hinit, hml]
            rw [htr] at hmem
            rcases List.mem_append.mp hmem with h | h
            · rcases List.mem_append.mp h with h2 | h2
              · rcases List.mem_append.mp h2 with h3 | h3
                · simp at h3
                · rcases init_events_shape l reads _ (by rw [hinit]; exact h3) with h' | h' <;>
                    exact Event.noConfusion h'
              · rcases mainLoop_events_shape dec now rest _ (by rw [hml]; exact h2) with
                  h' | h' | h'
                · exact Event.noConfusion h'
                · obtain ⟨m, h3⟩ := h'; exact Event.noConfusion h3
                · obtain ⟨d, h3⟩ := h'; exact Event.noConfusion h3
            · simp only [List.mem_singleton] at h
              exact exceptLog_ne_failed_init e h.symm

/-- C1: the claim says consecutive failures are retried after a slept
delay of min(2^(N-1), 60) seconds, reset after a successful handshake.
The code has no retry loop and no backoff state at all: on the very
first failure (connection refused at the constructor) `run` performs a
single connection attempt, sleeps zero times and returns. -/
theorem C1_no_backoff_no_retry :
    ((run dec0 listenerEx 5 (Script.ctorRaise PyError.connectionRefused)).1.filter
      (fun e => match e with | Event.slept _ => true | _ => false)) = [] ∧
    ((run dec0 listenerEx 5 (Script.ctorRaise PyError.connectionRefused)).1.filter
      (fun e => match e with | Event.connectAttempt => true | _ => false)) =
        [Event.connectAttempt] ∧
    (run dec0 listenerEx 5 (Script.ctorRaise PyError.connectionRefused)).2 =
      RunOutcome.returned :=
  ⟨rfl, rfl, rfl⟩

/-- C2: on a connection-refused constructor failure the supervisor does
catch and log the error without propagating it, but it does not sleep 1
second and does not retry: the whole trace is one connection attempt and
one error log, and `run` returns. -/
theorem C2_refused_logged_but_no_retry :
    run dec0 listenerEx 5 (Script.ctorRaise PyError.connectionRefused) =
      ([Event.connectAttempt,
        Event.logError
          "Telnet connection refused. Ensure the server is running and reachable."],
       RunOutcome.returned) := rfl

/-- C3: on the generic test record the formatted base message is
`" spotted: **K1ABC** on 14.250 SSB <t:5:R>"` — it does NOT begin with
the spotter, whose value `"Spotter1"` occurs nowhere in it — while the
relative timestamp does come from the formatting-time clock (`now = 5`)
and not from the record's `time` field (`"123456"` occurs nowhere). -/
theorem C3_spotter_absent_from_message :
    message_builder 5 payloadGeneric = .ok " spotted: **K1ABC** on 14.250 SSB <t:5:R>" ∧
    ¬ ("Spotter1".data <:+: (" spotted: **K1ABC** on 14.250 SSB <t:5:R>").data) ∧
    ("<t:5:R>".data <:+: (" spotted: **K1ABC** on 14.250 SSB <t:5:R>").data) ∧
    ¬ ("123456".data <:+: (" spotted: **K1ABC** on 14.250 SSB <t:5:R>").data) :=
  ⟨rfl, by decide, by decide, by decide⟩

set_option maxRecDepth 40000 in
/-- C4: on the POTA test record the output starts with the POTA marker
and embeds `wwffRef` in the park URL, but the park line is
`"Park:NP-123  National Park"` — reference, TWO spaces, name — so the
claimed single-space substring `"NP-123 National Park"` does not occur
in the message. -/
theorem C4_park_line_two_spaces :
    message_builder 5 payloadPota =
      .ok (potaMarker ++ " spotted: **K1XYZ** on 7.040 CW <t:5:R>" ++
        "\nPark:NP-123  National Park" ++ "\n<https://pota.app/#/park/NP-123>") ∧
    ¬ ("NP-123 National Park".data <:+:
        (potaMarker ++ " spotted: **K1XYZ** on 7.040 CW <t:5:R>" ++
          "\nPark:NP-123  National Park" ++ "\n<https://pota.app/#/park/NP-123>").data) :=
  ⟨rfl, by decide⟩

/-- C5: a successfully decoded dict missing any of the seven required
keys is logged as a warning and dropped — no sink call — and validity is
key existence only: a dict carrying all seven keys (whatever their
values, empty strings included) is formatted and sent. -/
theorem C5_missing_key_dropped :
    (∀ (dec : String → Option Json) (now : Nat) (data : String)
        (kvs : List (String × Json)) (k : String),
      dec data = some (Json.obj kvs) → k ∈ required_fields → dictLookup kvs k = none →
      process_data dec now data = .ok [Event.warned (Json.obj kvs)]) ∧
    (∀ (dec : String → Option Json) (now : Nat) (data : String)
        (kvs : List (String × Json)),
      dec data = some (Json.obj kvs) →
      (∀ k ∈ required_fields, (dictLookup kvs k).isSome) →
      ∃ m, process_data dec now data = .ok [Event.sent m]) := by
  constructor
  · intro dec now data kvs k hdec hk hmiss
    have hall : (required_fields.all fun k => (dictLookup kvs k).isSome) = false := by
      cases hall : required_fields.all fun k => (dictLookup kvs k).isSome with
      | false => rfl
      | true =>
        have := List.all_eq_true.mp hall k hk
        rw [hmiss] at this
        simp at this
    simp [process_data, hdec, check_required_obj, hall]
  · intro dec now data kvs hdec hall
    have h1 : (dictLookup kvs "fullCallsign").isSome := hall _ (by simp [required_fields])
    have h2 : (dictLookup kvs "frequency").isSome := hall _ (by simp [required_fields])
    have h3 : (dictLookup kvs "mode").isSome := hall _ (by simp [required_fields])
    obtain ⟨m, hm⟩ := message_builder_obj_ok now kvs h1 h2 h3
    refine ⟨m, ?_⟩
    have hatrue : (required_fields.all fun k => (dictLookup kvs k).isSome) = true :=
      List.all_eq_true.mpr fun k hk => hall k hk
    simp [process_data, hdec, check_required_obj, hatrue, hm]

/-- C5 witness: a decode yielding a dict with only `fullCallsign` is
dropped with a warning. -/
theorem C5_witness :
    process_data decMissing 5 "x" =
      .ok [Event.warned (Json.obj [("fullCallsign", Json.str "K1ABC")])] :=
  C5_missing_key_dropped.1 decMissing 5 "x" [("fullCallsign", Json.str "K1ABC")]
    "callsign" rfl (by simp [required_fields]) rfl

/-- C6: a line on which the structured decode fails is forwarded to the
sink verbatim, exactly once, as the only emitted event. -/
theorem C6_raw_line_forwarded (dec : String → Option Json) (now : Nat) (data : String)
    (h : dec data = none) :
    process_data dec now data = .ok [Event.sent data] := by
  simp [process_data, h]

/-- C6 witness: the raw test line is forwarded unmodified. -/
theorem C6_witness :
    process_data dec0 5 "Non JSON message" = .ok [Event.sent "Non JSON message"] :=
  C6_raw_line_forwarded dec0 5 "Non JSON message" rfl

/-- C7 counterexample: an actual zero-length line (the read returns just
the terminator `"\n"`) is NOT dispatched to classification — it strips
to the empty string, indistinguishable from a timeout, and triggers a
keepalive; no sink event is produced for it. -/
theorem C7_counterexample :
    mainLoop dec0 5 [ReadItem.bytes "\n"] = ([Event.keepalive], LoopOutcome.hang) ∧
    Event.sent "" ∉ (mainLoop dec0 5 [ReadItem.bytes "\n"]).1 := by
  refine ⟨rfl, ?_⟩
  intro h
  have h' : Event.sent "" ∈ [Event.keepalive] := h
  simp at h'

/-- C7 (amended): any read whose stripped text is empty — an idle
timeout, but equally a zero-length or whitespace-only line — triggers
exactly one keepalive send and the loop continues with the rest of the
stream; it is not dispatched to classification and does not tear the
session down. -/
theorem C7_empty_read_keepalive (dec : String → Option Json) (now : Nat)
    (s : String) (rest : List ReadItem) (h : pyStrip s = "") :
    mainLoop dec now (ReadItem.bytes s :: rest) =
      (Event.keepalive :: (mainLoop dec now rest).1, (mainLoop dec now rest).2) := by
  simp [mainLoop, h]

/-- C7 witness: a timed-out read (empty result) on an otherwise
exhausted script yields exactly one keepalive. -/
theorem C7_witness :
    mainLoop dec0 5 [ReadItem.bytes ""] =
      (Event.keepalive :: (mainLoop dec0 5 []).1, (mainLoop dec0 5 []).2) :=
  C7_empty_read_keepalive dec0 5 "" [] rfl

/-- C8: a valid sotawatch record formats to the SOTA marker followed by
the base message; with `summitName` present (a string `sn`) the message
additionally carries a `"\nSummit: sn"` line — an infix of the output —
and with `summitName` absent the output is exactly the marked base
message, with no summit line appended. -/
theorem C8_sotawatch_format (now : Nat) (kvs : List (String × Json)) (fc fr md : String)
    (hfc : dictLookup kvs "fullCallsign" = some (Json.str fc))
    (hfr : dictLookup kvs "frequency" = some (Json.str fr))
    (hmd : dictLookup kvs "mode" = some (Json.str md))
    (hsrc : dictLookup kvs "source" = some (Json.str "sotawatch")) :
    (∀ sn, dictLookup kvs "summitName" = some (Json.str sn) →
      message_builder now (Json.obj kvs) =
        .ok (sotaMarker ++ baseMessage now fc fr md ++ "\nSummit: " ++ sn) ∧
      ("\nSummit: " ++ sn).data <:+:
        (sotaMarker ++ baseMessage now fc fr md ++ "\nSummit: " ++ sn).data) ∧
    (dictLookup kvs "summitName" = none →
      message_builder now (Json.obj kvs) = .ok (sotaMarker ++ baseMessage now fc fr md)) := by
  constructor
  · intro sn hsn
    constructor
    · simp [message_builder, pyGetItem, pyGet, pyIn, pyEqStr, hfc, hfr, hmd, hsrc, hsn,
        pyStr, baseMessage]
    · refine ⟨(sotaMarker ++ baseMessage now fc fr md).data, [], ?_⟩
      simp [String.data_append]
  · intro hsn
    simp [message_builder, pyGetItem, pyGet, pyIn, pyEqStr, hfc, hfr, hmd, hsrc, hsn,
      pyStr, baseMessage]

/-- C8 witness: the sotawatch test payload formats to the marked base
message with the `Summit: Mount Test` line. -/
theorem C8_witness :
    message_builder 5 (Json.obj sotaKvs) =
      .ok (sotaMarker ++ baseMessage 5 "K1ABC" "14.250" "SSB" ++ "\nSummit: " ++ "Mount Test") :=
  ((C8_sotawatch_format 5 sotaKvs "K1ABC" "14.250" "SSB" rfl rfl rfl rfl).1
    "Mount Test" rfl).1

/-- C9: the line `"5"` decodes to the integer 5; the required-key
membership test `key in data_dict` then raises `TypeError`, so
`process_data` neither forwards nor drops the line, and the error
unwinds the read loop: `run` logs it and returns — in a session that
had completed its handshake, the whole session is aborted with no sink
call and no warning in the trace. -/
theorem C9_nondict_decode_aborts_session :
    process_data dec5 5 "5" = .error PyError.typeError ∧
    run dec5 listenerEx 5 scriptC9 =
      ([Event.connectAttempt, Event.wrote "TESTUSER\n", Event.wrote "testpass\n",
        Event.slept 1, Event.wrote "set/json\n",
        Event.logError "An error occurred: TypeError"], RunOutcome.returned) :=
  ⟨rfl, rfl⟩

/-- C10: `initialize_connection` returns `True` whenever it returns (the
only loop exit observes `"Operation successful"`), so the
failed-initialization branch of `run` never logs its error; and on a
stream that never yields the success line the handshake never returns. -/
theorem C10_init_returns_only_true :
    (∀ (l : TelnetListener) (reads : List ReadItem) (evs : List Event) (b : Bool)
        (rest : List ReadItem),
      init_connection l reads = InitOutcome.done evs b rest → b = true) ∧
    (∀ (dec : String → Option Json) (l : TelnetListener) (now : Nat) (script : Script),
      Event.logError "Failed to initialize connection." ∉ (run dec l now script).1) ∧
    (∀ (l : TelnetListener) (reads : List ReadItem),
      (∀ s, ReadItem.bytes s ∈ reads → pyStrip s ≠ "Operation successful") →
      ∀ evs b rest, init_connection l reads ≠ InitOutcome.done evs b rest) :=
  ⟨fun l reads => init_done_result_true l reads,
   fun dec l now script => run_no_failed_init_log dec l now script,
   fun l reads h => init_no_success_no_return l reads h⟩

/-- C10 witness: on a one-line stream without the success line the
handshake does not return. -/
theorem C10_witness :
    init_connection listenerEx [ReadItem.bytes "foo\n"] ≠ InitOutcome.done [] true [] :=
  C10_init_returns_only_true.2.2 listenerEx [ReadItem.bytes "foo\n"]
    (fun s hs => by
      have hs' : s = "foo\n" := by simpa using hs
      subst hs'
      decide) [] true []

end App
